import Mathlib

/-!
Shallow embedding of the `tauri-macos-haptics` plugin
(`src/lib.rs`, `src/commands.rs`, `src/haptics.rs`).

The crate is compile-time gated on `target_os = "macos"`; the embedding
makes that gate explicit with a `Platform` parameter.  The single native
effect (`performFeedbackPattern:performanceTime:`) is modelled by
recording the arguments it was invoked with in a `NativeCall` value, so
that theorems can speak about what the platform API receives.
-/

/-- Compilation target of the crate: macOS or any other platform
(the `cfg(target_os = "macos")` / `cfg(not(target_os = "macos"))` split). -/
inductive Platform where
  | macos : Platform
  | other : Platform
deriving DecidableEq, Repr

/-- Re-export of `NSHapticFeedbackPattern` (`src/haptics.rs`). -/
inductive HapticPattern where
  | Alignment : HapticPattern
  | LevelChange : HapticPattern
  | Generic : HapticPattern
deriving DecidableEq, Repr

/-- Re-export of `NSHapticFeedbackPerformanceTime` (`src/haptics.rs`). -/
inductive PerformanceTime where
  | Default : PerformanceTime
  | Now : PerformanceTime
  | DrawCompleted : PerformanceTime
deriving DecidableEq, Repr

/-- Error type `tauri::Error` as used by `HapticFeedbackManager::perform`:
no constructor of it is ever produced by the code under consideration, so
it is modelled as an empty type. -/
inductive TauriError : Type

/-- Rust `e.to_string()` on the (never-constructed) `tauri::Error`. -/
def TauriError.to_string (e : TauriError) : String := nomatch e

/-- Rust `Result<A, E>.map_err(f)`. -/
def map_err (f : ε → η) : Except ε α → Except η α
  | Except.ok a => Except.ok a
  | Except.error e => Except.error (f e)

/-- Arguments with which `performFeedbackPattern_performanceTime` (the one
native call in `src/haptics.rs`) is invoked. -/
structure NativeCall where
  pattern : HapticPattern
  ptime : PerformanceTime
deriving DecidableEq, Repr

/-- `pattern_from_u64` (`src/commands.rs`, lines 14-22): convert a `u64`
value to `HapticPattern`; `0 -> Alignment`, `1 -> LevelChange`,
`2 -> Generic`, any other value defaults to `Generic`. -/
def pattern_from_u64 (value : Nat) : HapticPattern :=
  match value with
  | 0 => HapticPattern.Alignment
  | 1 => HapticPattern.LevelChange
  | 2 => HapticPattern.Generic
  | _ => HapticPattern.Generic

/-- `performance_time_from_u64` (`src/commands.rs`, lines 33-41): convert a
`u64` value to `PerformanceTime`; `0 -> Default`, `1 -> Now`,
`2 -> DrawCompleted`, any other value defaults to `Default`. -/
def performance_time_from_u64 (value : Nat) : PerformanceTime :=
  match value with
  | 0 => PerformanceTime.Default
  | 1 => PerformanceTime.Now
  | 2 => PerformanceTime.DrawCompleted
  | _ => PerformanceTime.Default

/-- `crate::is_supported` (`src/lib.rs`, lines 60-77): `true` under
`cfg(target_os = "macos")`, `false` under `cfg(not(target_os = "macos"))`.
The namespace stands for the crate root `tauri_macos_haptics`. -/
def TauriMacosHaptics.is_supported (p : Platform) : Bool :=
  match p with
  | Platform.macos => true
  | Platform.other => false

/-- Command `is_supported` (`src/commands.rs`, lines 56-59): delegates to
`crate::is_supported`. -/
def Commands.is_supported (p : Platform) : Bool :=
  TauriMacosHaptics.is_supported p

/-- `HapticFeedbackManager::perform` (`src/haptics.rs`, lines 70-79):
resolves an absent `performance_time` to `Now`, invokes the native call,
and returns `Ok(())`.  The result pairs the Rust return value with the
recorded native invocation. -/
def HapticFeedbackManager.perform (pattern : HapticPattern)
    (performance_time : Option PerformanceTime) :
    Except TauriError Unit × NativeCall :=
  let ptime := performance_time.getD PerformanceTime.Now
  (Except.ok (), { pattern := pattern, ptime := ptime })

/-- Command `perform` (`src/commands.rs`, lines 82-95).  On macOS it decodes
both codes, always passes the decoded timing as a present (`Some`) argument,
and maps the (never-occurring) error to a string; on any other platform it
returns the fixed error string without decoding or invoking anything.  The
second component records the native call, if one was made. -/
def Commands.perform (p : Platform) (pattern : Nat) (performance_time : Nat) :
    Except String Unit × Option NativeCall :=
  match p with
  | Platform.macos =>
      let r := HapticFeedbackManager.perform (pattern_from_u64 pattern)
        (some (performance_time_from_u64 performance_time))
      (map_err TauriError.to_string r.1, some r.2)
  | Platform.other =>
      (Except.error "Haptic feedback is only supported on macOS.", none)

/-- Trace of the command `perform` called repeatedly on one platform: the
function holds no state (`src/commands.rs` has no statics and no mutable
captures), so each call is an independent evaluation. -/
def performTrace (p : Platform) (calls : List (Nat × Nat)) :
    List (Except String Unit × Option NativeCall) :=
  calls.map (fun c => Commands.perform p c.1 c.2)

/-- C1: `pattern_from_u64` is total over all unsigned inputs, always returns
one of Alignment, LevelChange, Generic, maps 0 to Alignment, 1 to
LevelChange, 2 to Generic, and every other value to Generic. -/
theorem pattern_from_u64_spec (n : Nat) :
    (pattern_from_u64 n = HapticPattern.Alignment ∨
      pattern_from_u64 n = HapticPattern.LevelChange ∨
      pattern_from_u64 n = HapticPattern.Generic) ∧
    pattern_from_u64 0 = HapticPattern.Alignment ∧
    pattern_from_u64 1 = HapticPattern.LevelChange ∧
    pattern_from_u64 2 = HapticPattern.Generic ∧
    (n ≠ 0 → n ≠ 1 → n ≠ 2 → pattern_from_u64 n = HapticPattern.Generic) := by
  match n with
  | 0 => exact ⟨Or.inl rfl, rfl, rfl, rfl, fun h _ _ => absurd rfl h⟩
  | 1 => exact ⟨Or.inr (Or.inl rfl), rfl, rfl, rfl, fun _ h _ => absurd rfl h⟩
  | 2 => exact ⟨Or.inr (Or.inr rfl), rfl, rfl, rfl, fun _ _ h => absurd rfl h⟩
  | (k + 3) => exact ⟨Or.inr (Or.inr rfl), rfl, rfl, rfl, fun _ _ _ => rfl⟩

/-- Witness for C1: at the out-of-range input 999, the decoder returns
Generic. -/
theorem pattern_from_u64_spec_witness :
    pattern_from_u64 999 = HapticPattern.Generic :=
  (pattern_from_u64_spec 999).2.2.2.2 (by decide) (by decide) (by decide)

/-- C2: `performance_time_from_u64` is total over all unsigned inputs,
always returns one of Default, Now, DrawCompleted, maps 0 to Default, 1 to
Now, 2 to DrawCompleted, and every other value to Default. -/
theorem performance_time_from_u64_spec (n : Nat) :
    (performance_time_from_u64 n = PerformanceTime.Default ∨
      performance_time_from_u64 n = PerformanceTime.Now ∨
      performance_time_from_u64 n = PerformanceTime.DrawCompleted) ∧
    performance_time_from_u64 0 = PerformanceTime.Default ∧
    performance_time_from_u64 1 = PerformanceTime.Now ∧
    performance_time_from_u64 2 = PerformanceTime.DrawCompleted ∧
    (n ≠ 0 → n ≠ 1 → n ≠ 2 →
      performance_time_from_u64 n = PerformanceTime.Default) := by
  match n with
  | 0 => exact ⟨Or.inl rfl, rfl, rfl, rfl, fun h _ _ => absurd rfl h⟩
  | 1 => exact ⟨Or.inr (Or.inl rfl), rfl, rfl, rfl, fun _ h _ => absurd rfl h⟩
  | 2 => exact ⟨Or.inr (Or.inr rfl), rfl, rfl, rfl, fun _ _ h => absurd rfl h⟩
  | (k + 3) => exact ⟨Or.inl rfl, rfl, rfl, rfl, fun _ _ _ => rfl⟩

/-- Witness for C2: at the out-of-range input 42, the decoder returns
Default. -/
theorem performance_time_from_u64_spec_witness :
    performance_time_from_u64 42 = PerformanceTime.Default :=
  (performance_time_from_u64_spec 42).2.2.2.2 (by decide) (by decide) (by decide)

/-- C3: `is_supported` returns true if and only if the platform is macOS,
returns false on every non-macOS platform, and the command layer delegates
to it unchanged. -/
theorem is_supported_iff_macos (p : Platform) :
    (TauriMacosHaptics.is_supported p = true ↔ p = Platform.macos) ∧
    Commands.is_supported p = TauriMacosHaptics.is_supported p ∧
    (p ≠ Platform.macos → TauriMacosHaptics.is_supported p = false) := by
  cases p with
  | macos => exact ⟨by simp [TauriMacosHaptics.is_supported], rfl, fun h => absurd rfl h⟩
  | other => exact ⟨by simp [TauriMacosHaptics.is_supported], rfl, fun _ => rfl⟩

/-- Witness for C3: on the non-macOS platform the probe answers false. -/
theorem is_supported_iff_macos_witness :
    TauriMacosHaptics.is_supported Platform.other = false :=
  (is_supported_iff_macos Platform.other).2.2 (by decide)

/-- C4: on a non-macOS platform, `perform` returns the fixed error string
for every input pair, and no native call (hence no decoding of either code)
takes place. -/
theorem perform_non_macos_errors (p : Platform) (hp : p ≠ Platform.macos)
    (a b : Nat) :
    Commands.perform p a b =
      (Except.error "Haptic feedback is only supported on macOS.", none) := by
  cases p with
  | macos => exact absurd rfl hp
  | other => rfl

/-- Witness for C4: the input pair (0, 0) on the non-macOS platform yields
the fixed error and no native call. -/
theorem perform_non_macos_errors_witness :
    Commands.perform Platform.other 0 0 =
      (Except.error "Haptic feedback is only supported on macOS.", none) :=
  perform_non_macos_errors Platform.other (by decide) 0 0

/-- C5: on macOS, `perform` returns `Ok(())` for every input pair, and the
underlying `HapticFeedbackManager::perform` never produces an error. -/
theorem perform_macos_always_ok (a b : Nat) :
    (Commands.perform Platform.macos a b).1 = Except.ok () ∧
    (∀ (pat : HapticPattern) (t : Option PerformanceTime),
      (HapticFeedbackManager.perform pat t).1 = Except.ok ()) :=
  ⟨rfl, fun _ _ => rfl⟩

/-- C6: for every pattern, calling the performer with an absent timing
argument resolves the timing to Now before the native call is made. -/
theorem perform_none_resolves_to_now (pat : HapticPattern) :
    HapticFeedbackManager.perform pat none =
      (Except.ok (), { pattern := pat, ptime := PerformanceTime.Now }) :=
  rfl

/-- C7: timing code 0 makes the command deliver the explicit value Default
to the native call, which is distinct from Now; the command always passes
the decoded timing as a present argument, so the absence default never
applies on the command path. -/
theorem perform_timing_zero_gives_default (pat : Nat) :
    (Commands.perform Platform.macos pat 0).2 =
      some { pattern := pattern_from_u64 pat, ptime := PerformanceTime.Default } ∧
    PerformanceTime.Default ≠ PerformanceTime.Now ∧
    (∀ t : Nat, (Commands.perform Platform.macos pat t).2 =
      some { pattern := pattern_from_u64 pat,
             ptime := performance_time_from_u64 t }) :=
  ⟨rfl, by decide, fun _ => rfl⟩

/-- C9: `perform` holds no state across calls: a run of identical calls
produces the identical result each time, and appending a call to any call
history yields the same result for it as evaluating it alone. -/
theorem perform_no_hidden_state (p : Platform) (pre : List (Nat × Nat))
    (a b n : Nat) :
    performTrace p (pre ++ [(a, b)]) =
      performTrace p pre ++ [Commands.perform p a b] ∧
    performTrace p (List.replicate n (a, b)) =
      List.replicate n (Commands.perform p a b) := by
  constructor
  · simp [performTrace]
  · simp [performTrace, List.map_replicate]

/-- C10: in the macOS branch of the command, the pattern handed to the
native call depends only on the pattern code, and the timing handed to the
native call depends only on the timing code. -/
theorem perform_decodings_independent (a b a2 b2 : Nat) :
    Option.map NativeCall.pattern (Commands.perform Platform.macos a b).2 =
      Option.map NativeCall.pattern (Commands.perform Platform.macos a b2).2 ∧
    Option.map NativeCall.ptime (Commands.perform Platform.macos a b).2 =
      Option.map NativeCall.ptime (Commands.perform Platform.macos a2 b).2 :=
  ⟨rfl, rfl⟩

/-- C8 counterexample: at input pair (0, 0) on the non-macOS platform, the
error message produced by `perform` is "Haptic feedback is only supported
on macOS.", which is not the string "feedback is only supported on macOS"
that the claim states. -/
theorem perform_error_message_counterexample :
    (Commands.perform Platform.other 0 0).1 =
      Except.error "Haptic feedback is only supported on macOS." ∧
    "Haptic feedback is only supported on macOS." ≠
      "feedback is only supported on macOS" :=
  ⟨rfl, by decide⟩

/-- C8 amended: on the non-macOS platform, `perform` surfaces the same
fixed error message "Haptic feedback is only supported on macOS." for
every input pair. -/
theorem perform_error_message_fixed (a b : Nat) :
    (Commands.perform Platform.other a b).1 =
      Except.error "Haptic feedback is only supported on macOS." :=
  rfl
